import Mathlib

/-!
Fulfillment tracking and document numbering: a shallow embedding.

This file embeds the fulfillment-tracking core of the order-management
backend: the per-line allocation check and event recording performed by
`create_invoice` (`src/app/routers/invoices.py`) and `create_shipment`
(`src/app/routers/shipments.py`), the aggregate status derivation those
handlers run afterwards, and the sequential document-number generators
`generate_order_number` (`src/app/routers/sales_orders.py`) and
`generate_invoice_number` (`src/app/routers/invoices.py`).

Database tables are embedded as Lean lists of rows, SQL aggregate queries as
folds over those lists, and the `async with db.begin()` transaction as an
`Except`-threaded computation whose error case returns the caller to the
unchanged pre-state (rollback).  Python integers are embedded as `Int`
(quantities carry no sign restriction in the code: the pydantic request
models declare plain `int`).
-/

deriving instance DecidableEq for Except

namespace Invision

/-- One row of the `so_items` table (`src/app/models/sales_orders.py`, class
`SOItem`): an order line carrying its parent order id and the ordered
`quantity`.  The price and tax-rate columns are omitted: they play no role in
allocation or status derivation. -/
structure SOItem where
  id : Nat
  sales_order_id : Nat
  quantity : Int
  deriving Repr, DecidableEq

/-- One row of `invoice_items` (`src/app/models/invoices.py`, class
`InvoiceItem`) or of `shipment_items` (`src/app/models/shipments.py`, class
`ShipmentItem`): a fulfillment event consuming `quantity` units of the order
line `so_item_id` on one track.  The two tables have the same shape (the
quantity column is named `quantity_invoiced` resp. `quantity_shipped`), so a
single structure embeds both. -/
structure FulfillmentEvent where
  so_item_id : Nat
  quantity : Int
  deriving Repr, DecidableEq

/-- The aggregate `select(func.sum(...quantity_invoiced)).where(...so_item_id == lineId)`
followed by `result.scalar() or 0` (`invoices.py` 185-189, mirrored for
`quantity_shipped` in `shipments.py` 86-90): the total quantity already
consumed for one order line on one track; SQL `sum` over no rows is `NULL`
and the code coalesces it to `0`. -/
def consumedQty (events : List FulfillmentEvent) (lineId : Nat) : Int :=
  (events.filter (fun e => e.so_item_id == lineId)).foldl
    (fun acc e => acc + e.quantity) 0

/-- The error outcomes of the per-item allocation code in `create_invoice`
(`invoices.py` 176-198) and `create_shipment` (`shipments.py` 77-99).  The
code raises `HTTPException(404)` for a missing sales order, and
`HTTPException(400)` for a foreign or missing line ("Invalid SO item ID")
and for the capacity failure ("Quantity exceeds remaining"), which the spec
names `CapacityExceeded`. -/
inductive AllocError where
  | notFound
  | invalidItem
  | capacityExceeded
  deriving Repr, DecidableEq

/-- The body of the per-item loop shared verbatim by `create_invoice`
(`invoices.py` 176-198) and `create_shipment` (`shipments.py` 77-99):
look up the line by primary key, reject it if missing or belonging to a
different order, compute the already-consumed total for this line and track,
reject if the new quantity would exceed the ordered quantity, and otherwise
record one new fulfillment event carrying the requested quantity.  On
success it returns the grown event table together with the created event;
an error aborts the enclosing transaction. -/
def allocateItem (items : List SOItem) (orderId : Nat)
    (events : List FulfillmentEvent) (soItemId : Nat) (qty : Int) :
    Except AllocError (List FulfillmentEvent × FulfillmentEvent) :=
  match items.find? (fun i => i.id == soItemId) with
  | Option.none => Except.error AllocError.invalidItem
  | Option.some so_item =>
    if so_item.sales_order_id != orderId then Except.error AllocError.invalidItem
    else if consumedQty events soItemId + qty > so_item.quantity then
      Except.error AllocError.capacityExceeded
    else
      Except.ok (events ++ [⟨soItemId, qty⟩], ⟨soItemId, qty⟩)

/-- Enum `SOInvoiceStatus` (`src/app/models/sales_orders.py`).  The middle
constructor's source name is the enum value string "partial"; it is renamed
here to `partiallyInvoiced`. -/
inductive SOInvoiceStatus where
  | not_invoiced
  | partiallyInvoiced
  | invoiced
  deriving Repr, DecidableEq

/-- Enum `ShipmentStatus` (`src/app/models/sales_orders.py`).  The middle
constructor's source name is the enum value string "partial"; it is renamed
here to `partiallyShipped`. -/
inductive ShipmentStatus where
  | not_shipped
  | partiallyShipped
  | shipped
  deriving Repr, DecidableEq

/-- The status recomputation loop of `create_invoice` (`invoices.py`
200-218): `fully_invoiced` stays `True` unless some line has
`total_invoiced < quantity`; `has_partial` becomes `True` when some line has
`total_invoiced > 0`; the order's `invoice_status` is then `invoiced`,
`partial`, or `not_invoiced` in that order of precedence. -/
def deriveInvoiceStatus (lines : List SOItem) (events : List FulfillmentEvent) :
    SOInvoiceStatus :=
  let fully_invoiced := lines.all (fun l => !decide (consumedQty events l.id < l.quantity))
  let has_partial := lines.any (fun l => decide (consumedQty events l.id > 0))
  if fully_invoiced then SOInvoiceStatus.invoiced
  else if has_partial then SOInvoiceStatus.partiallyInvoiced
  else SOInvoiceStatus.not_invoiced

/-- The status recomputation loop of `create_shipment` (`shipments.py`
101-119), identical in shape to the invoice one but over shipped
quantities and the `ShipmentStatus` enum. -/
def deriveShipmentStatus (lines : List SOItem) (events : List FulfillmentEvent) :
    ShipmentStatus :=
  let fully_shipped := lines.all (fun l => !decide (consumedQty events l.id < l.quantity))
  let has_partial := lines.any (fun l => decide (consumedQty events l.id > 0))
  if fully_shipped then ShipmentStatus.shipped
  else if has_partial then ShipmentStatus.partiallyShipped
  else ShipmentStatus.not_shipped

/-! Document-number generation.

`generate_order_number` (`sales_orders.py` 25-48) and
`generate_invoice_number` (`invoices.py` 31-52) share one algorithm: fetch
the stored document number matching `LIKE "{PFX}-{year}-%"` that is greatest
in the column's string order (`ORDER BY ... DESC LIMIT 1`), parse the text
after the final `"-"` as an integer, add one (falling back to 1 when parsing
fails or no number is stored), and render `f"{PFX}-{year}-{new_num:03d}"`.
Decimal rendering and `str.split` are embedded as executable character-list
functions; the database's string ordering is modelled as codepoint-wise
lexicographic order. -/

/-- Decimal digit characters of `n`, most significant first, computed with a
structural fuel argument so that the definition reduces inside the kernel;
`natDigits` below instantiates the fuel sufficiently. -/
def toDigitsAux : Nat → Nat → List Char
  | 0, _ => []
  | fuel + 1, n =>
    if n < 10 then [Nat.digitChar n]
    else toDigitsAux fuel (n / 10) ++ [Nat.digitChar (n % 10)]

/-- The decimal digit characters of `n`, most significant first: the
rendering performed by Python's decimal integer formatting. -/
def natDigits (n : Nat) : List Char := toDigitsAux (n + 1) n

/-- Left-pad a character list with `'0'` up to width `w`, never truncating:
the padding part of Python's `{:0wd}` format specifier. -/
def zfill (w : Nat) (l : List Char) : List Char :=
  List.replicate (w - l.length) '0' ++ l

/-- Python's `f"{n:03d}"`: render `n` in decimal, zero-padded to a total
width of at least three characters (the sign, when present, counts toward
the width), never truncated. -/
def int03 (n : Int) : String :=
  if n < 0 then String.mk ('-' :: zfill 2 (natDigits (-n).toNat))
  else String.mk (zfill 3 (natDigits n.toNat))

/-- Decimal rendering of a natural number as a string. -/
def natToStr (n : Nat) : String := String.mk (natDigits n)

/-- Python's `f"{pfx}-{year}-{n:03d}"`: the document-number rendering performed at
`sales_orders.py` line 48 (`pfx = "SO"`) and `invoices.py` line 52
(`pfx = "INV"`). -/
def formatDocNumber (pfx : String) (year : Nat) (n : Int) : String :=
  pfx ++ "-" ++ natToStr year ++ "-" ++ int03 n

/-- Python's `str.split("-")`: split at every occurrence of `'-'`; the
result is always nonempty and its last element is the text after the final
separator (empty when the string ends in `'-'`). -/
def splitDash : List Char → List (List Char)
  | [] => [[]]
  | c :: rest =>
    if c = '-' then [] :: splitDash rest
    else
      match splitDash rest with
      | [] => [[c]]
      | grp :: grps => (c :: grp) :: grps

/-- The value of a digit string read left to right. -/
def digitsVal (l : List Char) : Nat :=
  l.foldl (fun acc c => 10 * acc + (c.toNat - 48)) 0

/-- Parse a nonempty all-digit character list; `Option.none` otherwise. -/
def parseDigits? (l : List Char) : Option Nat :=
  if l ≠ [] ∧ l.all Char.isDigit then Option.some (digitsVal l) else Option.none

/-- Whitespace stripped by Python's `int(str)` before parsing. -/
def isPySpace (c : Char) : Bool :=
  c == ' ' || c == '\t' || c == '\n' || c == '\r'

/-- Strip leading and trailing whitespace. -/
def pyStrip (l : List Char) : List Char :=
  ((l.dropWhile isPySpace).reverse.dropWhile isPySpace).reverse

/-- Python's `int(str)` as used on `last_order.split("-")[-1]`
(`sales_orders.py` 41, `invoices.py` 45): optional surrounding whitespace,
optional sign, then decimal digits; anything else raises `ValueError`,
embedded as `Option.none`.  (Digit-grouping underscores, accepted by Python
since 3.6, are not modelled; no document number contains them.) -/
def pyIntParse? (s : String) : Option Int :=
  match pyStrip s.data with
  | [] => Option.none
  | '+' :: rest => (parseDigits? rest).map (fun n => (n : Int))
  | '-' :: rest => (parseDigits? rest).map (fun n => -(n : Int))
  | l => (parseDigits? l).map (fun n => (n : Int))

/-- Codepoint-wise lexicographic strict order on character lists: the string
ordering a `C`-collated text column gives ASCII data. -/
def lexLt : List Char → List Char → Bool
  | [], [] => false
  | [], _ :: _ => true
  | _ :: _, [] => false
  | a :: as, b :: bs =>
    if a < b then true else if b < a then false else lexLt as bs

/-- SQL `ORDER BY column DESC LIMIT 1` over a string column: the greatest
element of the list in lexicographic string order, `Option.none` when the
list is empty. -/
def maxString? (l : List String) : Option String :=
  l.foldl (fun acc s =>
    match acc with
    | Option.none => Option.some s
    | Option.some m => if lexLt m.data s.data then Option.some s else Option.some m)
    Option.none

/-- The shared body of `generate_order_number` (`sales_orders.py` 25-48) and
`generate_invoice_number` (`invoices.py` 31-52): filter the stored numbers by
the `LIKE "{pfx}-{year}-%"` pattern, take the lexicographically greatest
(`ORDER BY ... DESC LIMIT 1`), parse its final `"-"`-separated segment as an
integer and add one — falling back to `1` when nothing is stored or parsing
raises — and render the result zero-padded to at least three digits. -/
def generateDocNumber (pfx : String) (year : Nat) (stored : List String) : String :=
  let pat := pfx ++ "-" ++ natToStr year ++ "-"
  match maxString? (stored.filter (fun s => pat.data.isPrefixOf s.data)) with
  | Option.some last_number =>
    match pyIntParse? (String.mk ((splitDash last_number.data).getLastD [])) with
    | Option.some last_num => formatDocNumber pfx year (last_num + 1)
    | Option.none => formatDocNumber pfx year 1
  | Option.none => formatDocNumber pfx year 1

/-- Function `generate_order_number` (`sales_orders.py` 25-48); `stored` is the
`sales_orders.order_number` column and `year` is `datetime.now().year`. -/
def generate_order_number (year : Nat) (order_numbers : List String) : String :=
  generateDocNumber "SO" year order_numbers

/-- Function `generate_invoice_number` (`invoices.py` 31-52); `stored` is the
`invoices.invoice_number` column and `year` is `datetime.now().year`. -/
def generate_invoice_number (year : Nat) (invoice_numbers : List String) : String :=
  generateDocNumber "INV" year invoice_numbers

/-! The fulfillment operations.

`create_invoice` (`invoices.py` 145-284) and `create_shipment`
(`shipments.py` 52-127) run inside `async with db.begin()`: every raised
error rolls the transaction back, so an error leaves the database in its
pre-call state.  Within the transaction, pending rows are visible to the
later aggregate queries (the session autoflushes before each query), which
the embedding captures by threading the grown event list through the
computation. -/

/-- The slice of a `sales_orders` row (`src/app/models/sales_orders.py`,
class `SalesOrder`) that the fulfillment operations read or write: the
primary key and the two derived status columns. -/
structure OrderRow where
  id : Nat
  invoice_status : SOInvoiceStatus
  shipment_status : ShipmentStatus
  deriving Repr, DecidableEq

/-- One requested item of a `CreateInvoiceRequest` (`invoices.py` 16-18) or
`CreateShipmentRequest` (`shipments.py` 15-17): the targeted order line and
the quantity to consume.  The pydantic field is a plain `int`: no sign or
range constraint is imposed on `quantity`. -/
structure ItemReq where
  soItemId : Nat
  quantity : Int
  deriving Repr, DecidableEq

/-- The slice of database state the fulfillment operations touch: the
`sales_orders`, `so_items`, `invoice_items` and `shipment_items` tables, the
`invoices.invoice_number` column (read by the sequence generator and written
by `create_invoice`), and the number of `shipments` rows (shipments carry no
document number, so only their existence matters for atomicity). -/
structure DBState where
  orders : List OrderRow
  so_items : List SOItem
  invoice_numbers : List String
  invoice_items : List FulfillmentEvent
  shipment_count : Nat
  shipment_items : List FulfillmentEvent
  deriving Repr, DecidableEq

/-- The `for item_data in request.items` loop of `create_invoice`
(`invoices.py` 176-198) and `create_shipment` (`shipments.py` 77-99): run
`allocateItem` for each requested item in order, threading the grown event
table (the session autoflushes pending rows before each aggregate query, so
each check sees the events recorded earlier in the same request); the first
error aborts the whole loop.  Returns the final event table together with
the list of created events (the rows the response is built from). -/
def allocateAll (items : List SOItem) (orderId : Nat)
    (events : List FulfillmentEvent) (reqs : List ItemReq) :
    Except AllocError (List FulfillmentEvent × List FulfillmentEvent) :=
  match reqs with
  | [] => Except.ok (events, [])
  | r :: rest =>
    match allocateItem items orderId events r.soItemId r.quantity with
    | Except.error e => Except.error e
    | Except.ok (events1, ev) =>
      match allocateAll items orderId events1 rest with
      | Except.error e => Except.error e
      | Except.ok (eventsN, created) => Except.ok (eventsN, ev :: created)

/-- Assignment `sales_order.invoice_status = ...` (`invoices.py` 213-218): persist the
recomputed status on the order row. -/
def setInvoiceStatus (orders : List OrderRow) (orderId : Nat)
    (st : SOInvoiceStatus) : List OrderRow :=
  orders.map (fun o => if o.id == orderId then { o with invoice_status := st } else o)

/-- Assignment `sales_order.shipment_status = ...` (`shipments.py` 114-119): persist
the recomputed status on the order row. -/
def setShipmentStatus (orders : List OrderRow) (orderId : Nat)
    (st : ShipmentStatus) : List OrderRow :=
  orders.map (fun o => if o.id == orderId then { o with shipment_status := st } else o)

/-- The transaction body of `create_invoice` (`invoices.py` 151-218): fetch
the sales order (404 when absent), generate and store the next invoice
number, allocate every requested item, recompute the order's invoice status
over all its lines and the post-allocation events, and persist it — all
before the transaction commits.  Returns the committed state and the
created invoice items. -/
def createInvoiceTx (s : DBState) (year : Nat) (salesOrderId : Nat)
    (reqItems : List ItemReq) :
    Except AllocError (DBState × List FulfillmentEvent) :=
  match s.orders.find? (fun o => o.id == salesOrderId) with
  | Option.none => Except.error AllocError.notFound
  | Option.some _ =>
    let num := generate_invoice_number year s.invoice_numbers
    let s1 := { s with invoice_numbers := s.invoice_numbers ++ [num] }
    match allocateAll s1.so_items salesOrderId s1.invoice_items reqItems with
    | Except.error e => Except.error e
    | Except.ok (events, created) =>
      let lines := s1.so_items.filter (fun i => i.sales_order_id == salesOrderId)
      let st := deriveInvoiceStatus lines events
      Except.ok ({ s1 with
        invoice_items := events,
        orders := setInvoiceStatus s1.orders salesOrderId st }, created)

/-- Operation `create_invoice` (`invoices.py` 145-284) as observed by the database:
on success the transaction commits the new state; on any error the
`async with db.begin()` block rolls back and the pre-call state is
unchanged. -/
def create_invoice (s : DBState) (year : Nat) (salesOrderId : Nat)
    (reqItems : List ItemReq) :
    DBState × Except AllocError (List FulfillmentEvent) :=
  match createInvoiceTx s year salesOrderId reqItems with
  | Except.ok (s2, created) => (s2, Except.ok created)
  | Except.error e => (s, Except.error e)

/-- The transaction body of `create_shipment` (`shipments.py` 58-119):
fetch the sales order (404 when absent), insert the shipment row (shipments
carry no generated number), allocate every requested item, recompute the
order's shipment status and persist it. -/
def createShipmentTx (s : DBState) (salesOrderId : Nat)
    (reqItems : List ItemReq) :
    Except AllocError (DBState × List FulfillmentEvent) :=
  match s.orders.find? (fun o => o.id == salesOrderId) with
  | Option.none => Except.error AllocError.notFound
  | Option.some _ =>
    let s1 := { s with shipment_count := s.shipment_count + 1 }
    match allocateAll s1.so_items salesOrderId s1.shipment_items reqItems with
    | Except.error e => Except.error e
    | Except.ok (events, created) =>
      let lines := s1.so_items.filter (fun i => i.sales_order_id == salesOrderId)
      let st := deriveShipmentStatus lines events
      Except.ok ({ s1 with
        shipment_items := events,
        orders := setShipmentStatus s1.orders salesOrderId st }, created)

/-- Operation `create_shipment` (`shipments.py` 52-127) as observed by the database:
commit on success, roll back to the unchanged pre-call state on error. -/
def create_shipment (s : DBState) (salesOrderId : Nat)
    (reqItems : List ItemReq) :
    DBState × Except AllocError (List FulfillmentEvent) :=
  match createShipmentTx s salesOrderId reqItems with
  | Except.ok (s2, created) => (s2, Except.ok created)
  | Except.error e => (s, Except.error e)

/-- A sequence of independent allocation calls against one track, each its
own transaction: a rejected call rolls back and leaves the event table
unchanged, an accepted call appends its event. -/
def runAllocs (items : List SOItem) (orderId : Nat)
    (events : List FulfillmentEvent) (calls : List ItemReq) :
    List FulfillmentEvent :=
  calls.foldl (fun evs c =>
    match allocateItem items orderId evs c.soItemId c.quantity with
    | Except.ok (evs1, _) => evs1
    | Except.error _ => evs) events

/-- The Status Aggregator contract in the spec's words (spec section 4.3):
`complete` when every line's consumed total equals its ordered quantity,
else `partial` when some line's consumed total is positive, else `none` —
here for the invoice track, rendered in the code's enum. -/
def specInvoiceStatus (lines : List SOItem) (events : List FulfillmentEvent) :
    SOInvoiceStatus :=
  if lines.all (fun l => consumedQty events l.id == l.quantity) then
    SOInvoiceStatus.invoiced
  else if lines.any (fun l => decide (consumedQty events l.id > 0)) then
    SOInvoiceStatus.partiallyInvoiced
  else SOInvoiceStatus.not_invoiced

/-- The Status Aggregator contract in the spec's words, for the shipment
track. -/
def specShipmentStatus (lines : List SOItem) (events : List FulfillmentEvent) :
    ShipmentStatus :=
  if lines.all (fun l => consumedQty events l.id == l.quantity) then
    ShipmentStatus.shipped
  else if lines.any (fun l => decide (consumedQty events l.id > 0)) then
    ShipmentStatus.partiallyShipped
  else ShipmentStatus.not_shipped

/-- The Sequence Generator contract in the spec's words (spec section 4.1):
the next sequence value is the previous numeric maximum of the issued
sequence numbers for the `(kind, year)` key plus one, or `1` when none
exists.  Stated over the issued numeric values for comparison with the
code's string-ordering behaviour. -/
def specNextSeq (issued : List Nat) : Nat :=
  issued.foldr max 0 + 1

example : consumedQty [⟨1, 3⟩, ⟨2, 5⟩, ⟨1, 4⟩] 1 = 7 := by decide

example :
    create_invoice ⟨[⟨7, SOInvoiceStatus.not_invoiced, ShipmentStatus.not_shipped⟩],
      [⟨1, 7, 5⟩], [], [], 0, []⟩ 2025 7 [⟨1, 5⟩] =
    (⟨[⟨7, SOInvoiceStatus.invoiced, ShipmentStatus.not_shipped⟩],
      [⟨1, 7, 5⟩], ["INV-2025-001"], [⟨1, 5⟩], 0, []⟩, Except.ok [⟨1, 5⟩]) := by decide

example :
    create_invoice ⟨[⟨7, SOInvoiceStatus.not_invoiced, ShipmentStatus.not_shipped⟩],
      [⟨1, 7, 5⟩], [], [], 0, []⟩ 2025 7 [⟨1, 9⟩] =
    (⟨[⟨7, SOInvoiceStatus.not_invoiced, ShipmentStatus.not_shipped⟩],
      [⟨1, 7, 5⟩], [], [], 0, []⟩, Except.error AllocError.capacityExceeded) := by decide

example :
    create_shipment ⟨[⟨7, SOInvoiceStatus.not_invoiced, ShipmentStatus.not_shipped⟩],
      [⟨1, 7, 5⟩], [], [], 0, []⟩ 7 [⟨1, 2⟩] =
    (⟨[⟨7, SOInvoiceStatus.not_invoiced, ShipmentStatus.partiallyShipped⟩],
      [⟨1, 7, 5⟩], [], [], 1, [⟨1, 2⟩]⟩, Except.ok [⟨1, 2⟩]) := by decide

example : generate_order_number 2025 [] = "SO-2025-001" := by decide

example : generate_order_number 2025 ["SO-2025-001", "SO-2025-002"] = "SO-2025-003" := by
  decide

example : generate_order_number 2025 ["SO-2025-999", "SO-2025-1000"] = "SO-2025-1000" := by
  decide

example : generate_order_number 2025 ["SO-2025-xyz"] = "SO-2025-001" := by decide

example : generate_invoice_number 2025 ["INV-2025-041", "INV-2024-100"] = "INV-2025-042" := by
  decide

example : allocateItem [⟨1, 7, 5⟩] 7 [] 1 3 =
    Except.ok ([⟨1, 3⟩], ⟨1, 3⟩) := by decide

example : allocateItem [⟨1, 7, 5⟩] 7 [⟨1, 3⟩] 1 3 =
    Except.error AllocError.capacityExceeded := by decide

example : deriveInvoiceStatus [] [] = SOInvoiceStatus.invoiced := by decide

example : deriveInvoiceStatus [⟨1, 7, 5⟩] [⟨1, 5⟩] = SOInvoiceStatus.invoiced := by decide

example : deriveInvoiceStatus [⟨1, 7, 5⟩] [⟨1, 2⟩] = SOInvoiceStatus.partiallyInvoiced := by
  decide

/-! Supporting lemmas about consumed quantities and the allocation step. -/

theorem consumedQty_foldl_init (l : List FulfillmentEvent) (a : Int) :
    l.foldl (fun acc e => acc + e.quantity) a =
      a + l.foldl (fun acc e => acc + e.quantity) 0 := by
  induction l generalizing a with
  | nil => simp
  | cons e t ih =>
    simp only [List.foldl_cons]
    rw [ih (a + e.quantity), ih (0 + e.quantity)]
    omega

theorem consumedQty_append (a b : List FulfillmentEvent) (i : Nat) :
    consumedQty (a ++ b) i = consumedQty a i + consumedQty b i := by
  simp only [consumedQty, List.filter_append, List.foldl_append]
  rw [consumedQty_foldl_init]

theorem consumedQty_single (j : Nat) (q : Int) (i : Nat) :
    consumedQty [⟨j, q⟩] i = if j == i then q else 0 := by
  by_cases h : (j == i) = true <;>
    simp [consumedQty, List.filter, h]

theorem consumedQty_append_event (evs : List FulfillmentEvent) (j : Nat) (q : Int)
    (i : Nat) :
    consumedQty (evs ++ [⟨j, q⟩]) i =
      consumedQty evs i + (if j == i then q else 0) := by
  rw [consumedQty_append, consumedQty_single]

theorem allocateItem_eq (items : List SOItem) (orderId : Nat)
    (evs : List FulfillmentEvent) (line : SOItem) (q : Int)
    (hfind : items.find? (fun x => x.id == line.id) = Option.some line)
    (hown : line.sales_order_id = orderId) :
    allocateItem items orderId evs line.id q =
      if consumedQty evs line.id + q > line.quantity then
        Except.error AllocError.capacityExceeded
      else Except.ok (evs ++ [⟨line.id, q⟩], ⟨line.id, q⟩) := by
  subst hown
  simp [allocateItem, hfind]

theorem allocateItem_ok_consumed (items : List SOItem) (orderId : Nat)
    (line : SOItem)
    (hfind : items.find? (fun x => x.id == line.id) = Option.some line)
    {evs evs' : List FulfillmentEvent} {ev : FulfillmentEvent} {sid : Nat} {q : Int}
    (h : allocateItem items orderId evs sid q = Except.ok (evs', ev))
    (hle : consumedQty evs line.id ≤ line.quantity) :
    consumedQty evs' line.id ≤ line.quantity := by
  unfold allocateItem at h
  split at h
  · cases h
  · rename_i item hf
    split at h
    · cases h
    · split at h
      · cases h
      · rename_i hb hc
        injection h with h
        cases h
        rw [consumedQty_append_event]
        by_cases hid : (sid == line.id) = true
        · have hsid : sid = line.id := by simpa using hid
          subst hsid
          rw [hfind] at hf
          injection hf with hf
          rw [if_pos hid]
          rw [← hf] at hc
          omega
        · rw [if_neg hid]
          omega

theorem runAllocs_consumed_le (items : List SOItem) (orderId : Nat) (line : SOItem)
    (hfind : items.find? (fun x => x.id == line.id) = Option.some line)
    (calls : List ItemReq) (evs : List FulfillmentEvent)
    (hle : consumedQty evs line.id ≤ line.quantity) :
    consumedQty (runAllocs items orderId evs calls) line.id ≤ line.quantity := by
  induction calls generalizing evs with
  | nil => simpa [runAllocs] using hle
  | cons c t ih =>
    simp only [runAllocs, List.foldl_cons] at ih ⊢
    cases h : allocateItem items orderId evs c.soItemId c.quantity with
    | ok p =>
      exact ih p.1 (allocateItem_ok_consumed items orderId line hfind
        (by rw [h]) hle)
    | error e => exact ih evs hle

theorem allocateAll_consumed_le (items : List SOItem) (orderId : Nat) (line : SOItem)
    (hfind : items.find? (fun x => x.id == line.id) = Option.some line)
    (reqs : List ItemReq) {evs evsN created : List FulfillmentEvent}
    (h : allocateAll items orderId evs reqs = Except.ok (evsN, created))
    (hle : consumedQty evs line.id ≤ line.quantity) :
    consumedQty evsN line.id ≤ line.quantity := by
  induction reqs generalizing evs created with
  | nil =>
    simp only [allocateAll] at h
    injection h with h
    cases h
    exact hle
  | cons r t ih =>
    simp only [allocateAll] at h
    split at h
    · cases h
    · rename_i evs1 ev h1
      split at h
      · cases h
      · rename_i evsN2 crN h2
        injection h with h
        cases h
        exact ih h2 (allocateItem_ok_consumed items orderId line hfind h1 hle)

theorem list_all_congr {α : Type} {f g : α → Bool} {l : List α}
    (h : ∀ a ∈ l, f a = g a) : l.all f = l.all g := by
  induction l with
  | nil => rfl
  | cons a t ih =>
    simp only [List.all_cons]
    rw [h a (List.mem_cons_self a t), ih fun x hx => h x (List.mem_cons_of_mem a hx)]

theorem derive_invoice_eq_spec (lines : List SOItem) (events : List FulfillmentEvent)
    (h : ∀ l ∈ lines, consumedQty events l.id ≤ l.quantity) :
    deriveInvoiceStatus lines events = specInvoiceStatus lines events := by
  unfold deriveInvoiceStatus specInvoiceStatus
  have hall : lines.all (fun l => !decide (consumedQty events l.id < l.quantity)) =
      lines.all (fun l => consumedQty events l.id == l.quantity) := by
    refine list_all_congr fun l hl => ?_
    have hle := h l hl
    by_cases he : consumedQty events l.id = l.quantity
    · simp [he]
    · have hlt : consumedQty events l.id < l.quantity := by omega
      simp [he, hlt]
  rw [hall]

theorem derive_shipment_eq_spec (lines : List SOItem) (events : List FulfillmentEvent)
    (h : ∀ l ∈ lines, consumedQty events l.id ≤ l.quantity) :
    deriveShipmentStatus lines events = specShipmentStatus lines events := by
  unfold deriveShipmentStatus specShipmentStatus
  have hall : lines.all (fun l => !decide (consumedQty events l.id < l.quantity)) =
      lines.all (fun l => consumedQty events l.id == l.quantity) := by
    refine list_all_congr fun l hl => ?_
    have hle := h l hl
    by_cases he : consumedQty events l.id = l.quantity
    · simp [he]
    · have hlt : consumedQty events l.id < l.quantity := by omega
      simp [he, hlt]
  rw [hall]

theorem find?_eq_of_nodup (items : List SOItem) (line : SOItem)
    (hnd : (items.map (fun i => i.id)).Nodup) (hmem : line ∈ items) :
    items.find? (fun x => x.id == line.id) = Option.some line := by
  induction items with
  | nil => cases hmem
  | cons a t ih =>
    simp only [List.map_cons, List.nodup_cons] at hnd
    rcases List.mem_cons.mp hmem with rfl | hmem2
    · simp [List.find?]
    · have hne : (a.id == line.id) = false := by
        refine beq_eq_false_iff_ne.mpr fun he => hnd.1 ?_
        rw [he]
        exact List.mem_map.mpr ⟨line, hmem2, rfl⟩
      rw [List.find?_cons_of_neg _ (by simp [hne]), ih hnd.2 hmem2]

theorem find?_setInvoiceStatus (orders : List OrderRow) (orderId : Nat)
    (st : SOInvoiceStatus) (o : OrderRow)
    (h : orders.find? (fun x => x.id == orderId) = Option.some o) :
    (setInvoiceStatus orders orderId st).find? (fun x => x.id == orderId) =
      Option.some { o with invoice_status := st } := by
  induction orders with
  | nil => cases h
  | cons a t ih =>
    by_cases hp : (a.id == orderId) = true
    · simp only [List.find?, hp] at h
      injection h with h
      subst h
      simp only [setInvoiceStatus, List.map_cons, if_pos hp, List.find?]
      simp [hp]
    · have hp2 : (a.id == orderId) = false := by simpa using hp
      simp only [List.find?, hp2] at h
      simp only [setInvoiceStatus, List.map_cons]
      rw [if_neg hp]
      simp only [List.find?, hp2]
      simpa [setInvoiceStatus] using ih h

theorem find?_setShipmentStatus (orders : List OrderRow) (orderId : Nat)
    (st : ShipmentStatus) (o : OrderRow)
    (h : orders.find? (fun x => x.id == orderId) = Option.some o) :
    (setShipmentStatus orders orderId st).find? (fun x => x.id == orderId) =
      Option.some { o with shipment_status := st } := by
  induction orders with
  | nil => cases h
  | cons a t ih =>
    by_cases hp : (a.id == orderId) = true
    · simp only [List.find?, hp] at h
      injection h with h
      subst h
      simp only [setShipmentStatus, List.map_cons, if_pos hp, List.find?]
      simp [hp]
    · have hp2 : (a.id == orderId) = false := by simpa using hp
      simp only [List.find?, hp2] at h
      simp only [setShipmentStatus, List.map_cons]
      rw [if_neg hp]
      simp only [List.find?, hp2]
      simpa [setShipmentStatus] using ih h

/-! Supporting lemmas about decimal rendering, padding and parsing. -/

theorem toDigitsAux_fuel (f1 : Nat) : ∀ (f2 n : Nat), n < f1 → n < f2 →
    toDigitsAux f1 n = toDigitsAux f2 n := by
  induction f1 with
  | zero => intro f2 n h1 h2; omega
  | succ f ih =>
    intro f2 n h1 h2
    cases f2 with
    | zero => omega
    | succ g =>
      simp only [toDigitsAux]
      by_cases hn : n < 10
      · simp [hn]
      · have hd : n / 10 < n := Nat.div_lt_self (by omega) (by omega)
        rw [if_neg hn, if_neg hn, ih g (n / 10) (by omega) (by omega)]

theorem natDigits_lt10 {n : Nat} (h : n < 10) : natDigits n = [Nat.digitChar n] := by
  simp [natDigits, toDigitsAux, h]

theorem natDigits_ge10 {n : Nat} (h : 10 ≤ n) :
    natDigits n = natDigits (n / 10) ++ [Nat.digitChar (n % 10)] := by
  have hd : n / 10 < n := Nat.div_lt_self (by omega) (by omega)
  have hstep : toDigitsAux (n + 1) n =
      toDigitsAux n (n / 10) ++ [Nat.digitChar (n % 10)] := by
    simp only [toDigitsAux]
    rw [if_neg (by omega)]
  rw [natDigits, natDigits, hstep,
    toDigitsAux_fuel n (n / 10 + 1) (n / 10) (by omega) (by omega)]

theorem digitChar_toNat {d : Nat} (h : d < 10) : (Nat.digitChar d).toNat = 48 + d := by
  interval_cases d <;> decide

theorem digitChar_isDigit {d : Nat} (h : d < 10) : (Nat.digitChar d).isDigit = true := by
  interval_cases d <;> decide

theorem natDigits_ne_nil (n : Nat) : natDigits n ≠ [] := by
  by_cases h : n < 10
  · rw [natDigits_lt10 h]; simp
  · rw [natDigits_ge10 (by omega)]; simp

theorem natDigits_all_isDigit (n : Nat) : (natDigits n).all Char.isDigit = true := by
  induction n using Nat.strong_induction_on with
  | _ n ih =>
    by_cases h : n < 10
    · rw [natDigits_lt10 h]
      simp [digitChar_isDigit h]
    · have hd : n / 10 < n := Nat.div_lt_self (by omega) (by omega)
      rw [natDigits_ge10 (by omega)]
      simp [List.all_append, ih _ hd, digitChar_isDigit (Nat.mod_lt n (by omega))]

theorem digitsVal_natDigits (n : Nat) : digitsVal (natDigits n) = n := by
  induction n using Nat.strong_induction_on with
  | _ n ih =>
    by_cases h : n < 10
    · rw [natDigits_lt10 h]
      simp only [digitsVal, List.foldl_cons, List.foldl_nil]
      rw [digitChar_toNat h]
      omega
    · have hd : n / 10 < n := Nat.div_lt_self (by omega) (by omega)
      rw [natDigits_ge10 (by omega)]
      simp only [digitsVal, List.foldl_append, List.foldl_cons, List.foldl_nil]
      have hv := ih _ hd
      simp only [digitsVal] at hv
      rw [hv, digitChar_toNat (Nat.mod_lt n (by omega))]
      omega

theorem foldl_digits_replicate_zero (k : Nat) :
    (List.replicate k '0').foldl (fun acc c => 10 * acc + (c.toNat - 48)) 0 = 0 := by
  induction k with
  | zero => rfl
  | succ k ih =>
    rw [List.replicate_succ, List.foldl_cons]
    have h0 : 10 * 0 + (('0' : Char).toNat - 48) = 0 := by decide
    rw [h0, ih]

theorem digitsVal_zfill (w : Nat) (l : List Char) :
    digitsVal (zfill w l) = digitsVal l := by
  simp only [digitsVal, zfill, List.foldl_append, foldl_digits_replicate_zero]

theorem zfill_all_isDigit (w : Nat) (l : List Char)
    (h : l.all Char.isDigit = true) :
    (zfill w l).all Char.isDigit = true := by
  simp only [zfill, List.all_append, h, Bool.and_true]
  simp only [List.all_eq_true]
  intro c hc
  rw [List.eq_of_mem_replicate hc]
  decide

theorem zfill_length_ge (w : Nat) (l : List Char) : w ≤ (zfill w l).length := by
  simp only [zfill, List.length_append, List.length_replicate]
  omega

theorem parseDigits?_zfill_natDigits (n : Nat) :
    parseDigits? (zfill 3 (natDigits n)) = Option.some n := by
  have hne : zfill 3 (natDigits n) ≠ [] := by
    simp only [zfill]
    intro hcontra
    rcases List.append_eq_nil.mp hcontra with ⟨_, h2⟩
    exact natDigits_ne_nil n h2
  simp only [parseDigits?]
  rw [if_pos ⟨hne, zfill_all_isDigit 3 _ (natDigits_all_isDigit n)⟩]
  rw [digitsVal_zfill, digitsVal_natDigits]

theorem string_data_inj {s t : String} (h : s.data = t.data) : s = t := by
  cases s; cases t; exact congrArg String.mk h

/-! Claim theorems. -/

/-- C4 (counterexample): the spec defines an order with zero order lines to
derive status `none` for each track, never `complete`; on the code, the
status loop over zero lines leaves `fully_invoiced` / `fully_shipped`
`True`, so at the concrete empty order the derived status is the complete
status (`invoiced` resp. `shipped`), not the none status
(`not_invoiced` resp. `not_shipped`). -/
theorem zero_line_order_status_counterexample :
    deriveInvoiceStatus [] [] = SOInvoiceStatus.invoiced ∧
    SOInvoiceStatus.invoiced ≠ SOInvoiceStatus.not_invoiced ∧
    deriveShipmentStatus [] [] = ShipmentStatus.shipped ∧
    ShipmentStatus.shipped ≠ ShipmentStatus.not_shipped := by
  refine ⟨by decide, by decide, by decide, by decide⟩

/-- C4 (amended): for every order with zero order lines, the derived
aggregate status for each track is the complete status (`invoiced` on the
invoice track, `shipped` on the shipment track) whatever events are
recorded: the `fully_*` flag is vacuously true over zero lines. -/
theorem zero_line_order_status_complete
    (events events2 : List FulfillmentEvent) :
    deriveInvoiceStatus [] events = SOInvoiceStatus.invoiced ∧
    deriveShipmentStatus [] events2 = ShipmentStatus.shipped := by
  exact ⟨rfl, rfl⟩

/-- C5 (code evaluated at the failing input): `generate_order_number` takes
the lexicographically greatest stored number (`ORDER BY order_number DESC
LIMIT 1` on a string column), not the numerically greatest.  With
`SO-2025-999` and `SO-2025-1000` stored, the string `"SO-2025-999"` is the
`ORDER BY` maximum, so the code regenerates `"SO-2025-1000"` — a number
that already exists, so the insert violates the column's unique constraint
— whereas the numeric maximum of the issued sequence numbers is 1000 and
the next number under the spec's contract is `SO-2025-1001`. -/
theorem lexicographic_max_number_collision :
    generate_order_number 2025 ["SO-2025-999", "SO-2025-1000"] = "SO-2025-1000" ∧
    "SO-2025-1000" ∈ ["SO-2025-999", "SO-2025-1000"] ∧
    specNextSeq [999, 1000] = 1001 ∧
    formatDocNumber "SO" 2025 ((specNextSeq [999, 1000] : Nat) : Int) = "SO-2025-1001" ∧
    generate_order_number 2025 ["SO-2025-999", "SO-2025-1000"] ≠ "SO-2025-1001" := by
  refine ⟨by decide, by decide, by decide, by decide, by decide⟩

/-- C6 (counterexample): the spec says every allocation request with
quantity ≤ 0 fails with `InvalidQuantity` and records no event; the code
has no such check.  At the concrete inputs below — a line with ordered
quantity 5 and no prior events — requests for quantity 0 and for quantity
-3 both pass the capacity check, succeed, and record a fulfillment event
carrying the nonpositive quantity; the full `create_invoice` operation
likewise commits the zero-quantity event. -/
theorem nonpositive_quantity_accepted_counterexample :
    allocateItem [⟨1, 7, 5⟩] 7 [] 1 0 = Except.ok ([⟨1, 0⟩], ⟨1, 0⟩) ∧
    allocateItem [⟨1, 7, 5⟩] 7 [] 1 (-3) = Except.ok ([⟨1, -3⟩], ⟨1, -3⟩) ∧
    create_invoice ⟨[⟨7, SOInvoiceStatus.not_invoiced, ShipmentStatus.not_shipped⟩],
        [⟨1, 7, 5⟩], [], [], 0, []⟩ 2025 7 [⟨1, 0⟩] =
      (⟨[⟨7, SOInvoiceStatus.not_invoiced, ShipmentStatus.not_shipped⟩],
        [⟨1, 7, 5⟩], ["INV-2025-001"], [⟨1, 0⟩], 0, []⟩, Except.ok [⟨1, 0⟩]) := by
  refine ⟨by decide, by decide, by decide⟩

/-- C6 (amended): allocation requests with quantity ≤ 0 are not rejected —
the code performs no `InvalidQuantity` check — and are subject only to the
capacity check, so whenever the line's already-consumed total is within its
ordered quantity, a request with nonpositive quantity succeeds and records
one fulfillment event carrying that quantity. -/
theorem nonpositive_quantity_accepted (items : List SOItem) (orderId : Nat)
    (evs : List FulfillmentEvent) (line : SOItem) (q : Int)
    (hfind : items.find? (fun x => x.id == line.id) = Option.some line)
    (hown : line.sales_order_id = orderId)
    (hq : q ≤ 0)
    (hle : consumedQty evs line.id ≤ line.quantity) :
    allocateItem items orderId evs line.id q =
      Except.ok (evs ++ [⟨line.id, q⟩], ⟨line.id, q⟩) := by
  rw [allocateItem_eq items orderId evs line q hfind hown, if_neg (by omega)]

/-- Witness for the amended C6 at a concrete input. -/
theorem nonpositive_quantity_accepted_witness :
    allocateItem [⟨1, 7, 5⟩] 7 [⟨1, 4⟩] 1 (-2) =
      Except.ok ([⟨1, 4⟩, ⟨1, -2⟩], ⟨1, -2⟩) := by
  have h := nonpositive_quantity_accepted [⟨1, 7, 5⟩] 7 [⟨1, 4⟩] ⟨1, 7, 5⟩ (-2)
    (by decide) (by decide) (by decide) (by decide)
  simpa using h

/-- C10: when some document number is stored for the `(kind, year)` pattern
but the lexicographically greatest one has a final `"-"`-separated segment
that Python's `int` cannot parse, the generator falls back to sequence
number 1: it returns the rendering of sequence 1 (e.g. `SO-2025-001`) even
though numbers for that year already exist. -/
theorem unparseable_suffix_resets_sequence (pfx : String) (year : Nat)
    (stored : List String) (last_number : String)
    (hmax : maxString? (stored.filter (fun s =>
        (pfx ++ "-" ++ natToStr year ++ "-").data.isPrefixOf s.data)) =
      Option.some last_number)
    (hparse : pyIntParse? (String.mk ((splitDash last_number.data).getLastD [])) =
      Option.none) :
    generateDocNumber pfx year stored = formatDocNumber pfx year 1 := by
  simp only [generateDocNumber, hmax, hparse]

/-- Witness for C10 at a concrete database state: `SO-2025-xyz` is stored,
its final segment `xyz` does not parse, and the generator returns
`SO-2025-001`. -/
theorem unparseable_suffix_resets_sequence_witness :
    generateDocNumber "SO" 2025 ["SO-2025-xyz"] = formatDocNumber "SO" 2025 1 ∧
    formatDocNumber "SO" 2025 1 = "SO-2025-001" :=
  ⟨unparseable_suffix_resets_sequence "SO" 2025 ["SO-2025-xyz"] "SO-2025-xyz"
      (by decide) (by decide), by decide⟩

/-- C8: the generator renders a sequence value `n ≥ 1` as
`{PREFIX}-{year}-{digits}` with the decimal digits of `n` zero-padded to at
least three characters and never truncated: the concrete values 1, 42, 999
and 1000 render as `SO-2025-001`, `SO-2025-042`, `SO-2025-999` and
`SO-2025-1000`; in general the rendered string consists of the prefix, the
year and the padded digit block, whose length stays at least 3 and which
parses back to exactly `n`. -/
theorem sequence_number_formatting :
    (formatDocNumber "SO" 2025 1 = "SO-2025-001" ∧
     formatDocNumber "SO" 2025 42 = "SO-2025-042" ∧
     formatDocNumber "SO" 2025 999 = "SO-2025-999" ∧
     formatDocNumber "SO" 2025 1000 = "SO-2025-1000") ∧
    ∀ (pfx : String) (year n : Nat), 1 ≤ n →
      formatDocNumber pfx year ((n : Nat) : Int) =
        String.mk (pfx.data ++ '-' :: natDigits year ++ '-' :: zfill 3 (natDigits n)) ∧
      3 ≤ (zfill 3 (natDigits n)).length ∧
      parseDigits? (zfill 3 (natDigits n)) = Option.some n := by
  refine ⟨⟨by decide, by decide, by decide, by decide⟩, ?_⟩
  intro pfx year n hn
  refine ⟨?_, zfill_length_ge 3 _, parseDigits?_zfill_natDigits n⟩
  simp only [formatDocNumber, int03, natToStr]
  rw [if_neg (by omega : ¬ ((n : Nat) : Int) < 0)]
  have hcast : (((n : Nat) : Int)).toNat = n := by omega
  rw [hcast]
  apply string_data_inj
  simp [String.data_append]

/-- Witness for the general part of C8 at `pfx = "SO"`, `year = 2025`,
`n = 42`. -/
theorem sequence_number_formatting_witness :
    formatDocNumber "SO" 2025 ((42 : Nat) : Int) =
      String.mk ("SO".data ++ '-' :: natDigits 2025 ++ '-' :: zfill 3 (natDigits 42)) ∧
    3 ≤ (zfill 3 (natDigits 42)).length ∧
    parseDigits? (zfill 3 (natDigits 42)) = Option.some 42 :=
  sequence_number_formatting.2 "SO" 2025 42 (by decide)

/-- C2: starting from a state with no events on a line, any sequence of
allocation calls against that line's track (each call its own transaction)
keeps the line's consumed total — the sum of the accepted quantities —
within its ordered quantity; and any single call that would push the
consumed total above the ordered quantity is rejected with the capacity
error (so it records no event). -/
theorem capacity_invariant (items : List SOItem) (orderId : Nat)
    (line : SOItem) (calls : List ItemReq)
    (hfind : items.find? (fun x => x.id == line.id) = Option.some line)
    (hown : line.sales_order_id = orderId)
    (hq : 0 ≤ line.quantity) :
    consumedQty (runAllocs items orderId [] calls) line.id ≤ line.quantity ∧
    ∀ (evs : List FulfillmentEvent) (q : Int),
      line.quantity < consumedQty evs line.id + q →
      allocateItem items orderId evs line.id q =
        Except.error AllocError.capacityExceeded := by
  constructor
  · exact runAllocs_consumed_le items orderId line hfind calls []
      (by simpa [consumedQty] using hq)
  · intro evs q hgt
    rw [allocateItem_eq items orderId evs line q hfind hown, if_pos (by omega)]

/-- Witness for C2: a line with ordered quantity 5; calls for 3, 3 and 2
units — the second is rejected (3 + 3 > 5), the others accepted — leave the
consumed total at 5 ≤ 5, and the rejection branch holds at the concrete
over-capacity call. -/
theorem capacity_invariant_witness :
    consumedQty (runAllocs [⟨1, 7, 5⟩] 7 [] [⟨1, 3⟩, ⟨1, 3⟩, ⟨1, 2⟩]) 1 ≤ 5 ∧
    ∀ (evs : List FulfillmentEvent) (q : Int),
      (5 : Int) < consumedQty evs 1 + q →
      allocateItem [⟨1, 7, 5⟩] 7 evs 1 q =
        Except.error AllocError.capacityExceeded :=
  capacity_invariant [⟨1, 7, 5⟩] 7 ⟨1, 7, 5⟩ [⟨1, 3⟩, ⟨1, 3⟩, ⟨1, 2⟩]
    (by decide) (by decide) (by decide)

theorem allocateAll_single (items : List SOItem) (orderId : Nat)
    (evs : List FulfillmentEvent) (line : SOItem) (q : Int)
    (hfind : items.find? (fun x => x.id == line.id) = Option.some line)
    (hown : line.sales_order_id = orderId) :
    allocateAll items orderId evs [⟨line.id, q⟩] =
      if consumedQty evs line.id + q > line.quantity then
        Except.error AllocError.capacityExceeded
      else Except.ok (evs ++ [⟨line.id, q⟩], [⟨line.id, q⟩]) := by
  simp only [allocateAll, allocateItem_eq items orderId evs line q hfind hown]
  by_cases hc : consumedQty evs line.id + q > line.quantity
  · rw [if_pos hc, if_pos hc]
  · rw [if_neg hc, if_neg hc]

/-- C1: for a fulfillment request targeting one existing order line of an
existing order, on either track: letting `already` be the summed consumed
quantity of the existing events for that line and track, if
`already + quantity` exceeds the line's ordered quantity then the operation
fails with the capacity error and the committed database state is exactly
the pre-call state (no fulfillment event, no document, no status change is
persisted); otherwise the operation succeeds, persists exactly one new
fulfillment event carrying the requested quantity, returns it, and leaves
the other track's events untouched. -/
theorem allocation_check_and_atomicity (s : DBState) (year orderId : Nat)
    (line : SOItem) (q : Int) (o : OrderRow)
    (horder : s.orders.find? (fun x => x.id == orderId) = Option.some o)
    (hfind : s.so_items.find? (fun x => x.id == line.id) = Option.some line)
    (hown : line.sales_order_id = orderId) :
    (line.quantity < consumedQty s.invoice_items line.id + q →
      create_invoice s year orderId [⟨line.id, q⟩] =
        (s, Except.error AllocError.capacityExceeded)) ∧
    (consumedQty s.invoice_items line.id + q ≤ line.quantity →
      ∃ s2, create_invoice s year orderId [⟨line.id, q⟩] =
          (s2, Except.ok [⟨line.id, q⟩]) ∧
        s2.invoice_items = s.invoice_items ++ [⟨line.id, q⟩] ∧
        s2.shipment_items = s.shipment_items) ∧
    (line.quantity < consumedQty s.shipment_items line.id + q →
      create_shipment s orderId [⟨line.id, q⟩] =
        (s, Except.error AllocError.capacityExceeded)) ∧
    (consumedQty s.shipment_items line.id + q ≤ line.quantity →
      ∃ s2, create_shipment s orderId [⟨line.id, q⟩] =
          (s2, Except.ok [⟨line.id, q⟩]) ∧
        s2.shipment_items = s.shipment_items ++ [⟨line.id, q⟩] ∧
        s2.invoice_items = s.invoice_items) := by
  refine ⟨?_, ?_, ?_, ?_⟩
  · intro hgt
    simp only [create_invoice, createInvoiceTx, horder,
      allocateAll_single s.so_items orderId s.invoice_items line q hfind hown,
      if_pos (by omega : consumedQty s.invoice_items line.id + q > line.quantity)]
  · intro hle
    refine ⟨{ s with
        invoice_numbers :=
          s.invoice_numbers ++ [generate_invoice_number year s.invoice_numbers],
        invoice_items := s.invoice_items ++ [⟨line.id, q⟩],
        orders := setInvoiceStatus s.orders orderId
          (deriveInvoiceStatus
            (s.so_items.filter (fun i => i.sales_order_id == orderId))
            (s.invoice_items ++ [⟨line.id, q⟩])) }, ?_, ?_, ?_⟩
    · simp only [create_invoice, createInvoiceTx, horder,
        allocateAll_single s.so_items orderId s.invoice_items line q hfind hown,
        if_neg (by omega : ¬ consumedQty s.invoice_items line.id + q > line.quantity)]
    · rfl
    · rfl
  · intro hgt
    simp only [create_shipment, createShipmentTx, horder,
      allocateAll_single s.so_items orderId s.shipment_items line q hfind hown,
      if_pos (by omega : consumedQty s.shipment_items line.id + q > line.quantity)]
  · intro hle
    refine ⟨{ s with
        shipment_count := s.shipment_count + 1,
        shipment_items := s.shipment_items ++ [⟨line.id, q⟩],
        orders := setShipmentStatus s.orders orderId
          (deriveShipmentStatus
            (s.so_items.filter (fun i => i.sales_order_id == orderId))
            (s.shipment_items ++ [⟨line.id, q⟩])) }, ?_, ?_, ?_⟩
    · simp only [create_shipment, createShipmentTx, horder,
        allocateAll_single s.so_items orderId s.shipment_items line q hfind hown,
        if_neg (by omega : ¬ consumedQty s.shipment_items line.id + q > line.quantity)]
    · rfl
    · rfl

/-- Witness for C1 at a concrete state: one order, one line with ordered
quantity 5 and 4 units already invoiced and 0 shipped; invoicing 2 more
exceeds capacity and leaves the state unchanged, shipping 2 succeeds with
exactly one new event. -/
theorem allocation_check_and_atomicity_witness :
    (create_invoice ⟨[⟨7, SOInvoiceStatus.partiallyInvoiced, ShipmentStatus.not_shipped⟩],
        [⟨1, 7, 5⟩], ["INV-2025-001"], [⟨1, 4⟩], 0, []⟩ 2025 7 [⟨1, 2⟩] =
      (⟨[⟨7, SOInvoiceStatus.partiallyInvoiced, ShipmentStatus.not_shipped⟩],
        [⟨1, 7, 5⟩], ["INV-2025-001"], [⟨1, 4⟩], 0, []⟩,
        Except.error AllocError.capacityExceeded)) ∧
    ∃ s2, create_shipment ⟨[⟨7, SOInvoiceStatus.partiallyInvoiced,
          ShipmentStatus.not_shipped⟩],
        [⟨1, 7, 5⟩], ["INV-2025-001"], [⟨1, 4⟩], 0, []⟩ 7 [⟨1, 2⟩] =
        (s2, Except.ok [⟨1, 2⟩]) ∧
      s2.shipment_items = ([⟨1, 4⟩] : List FulfillmentEvent).tail ++ [⟨1, 2⟩] ∧
      s2.invoice_items = [⟨1, 4⟩] := by
  have h := allocation_check_and_atomicity
    ⟨[⟨7, SOInvoiceStatus.partiallyInvoiced, ShipmentStatus.not_shipped⟩],
      [⟨1, 7, 5⟩], ["INV-2025-001"], [⟨1, 4⟩], 0, []⟩ 2025 7 ⟨1, 7, 5⟩ 2
    ⟨7, SOInvoiceStatus.partiallyInvoiced, ShipmentStatus.not_shipped⟩
    (by decide) (by decide) (by decide)
  exact ⟨h.1 (by decide), h.2.2.2 (by decide)⟩

/-- C3: after every successful fulfillment operation on an order with at
least one order line — in a pre-state whose line primary keys are unique
and whose consumed totals respect the capacity invariant — the committed
state carries on the affected track exactly the spec's derived status over
the order's lines and the post-operation events: complete (`invoiced` /
`shipped`) when every line's consumed total equals its ordered quantity,
else partial when some line's total is positive, else none; the recomputed
status is part of the state the same transaction commits. -/
theorem status_aggregation_after_fulfillment (s : DBState) (year orderId : Nat)
    (reqs : List ItemReq) (s2 : DBState) (created : List FulfillmentEvent)
    (hnd : (s.so_items.map (fun i => i.id)).Nodup)
    (_hne : s.so_items.filter (fun i => i.sales_order_id == orderId) ≠ []) :
    ((∀ l ∈ s.so_items, consumedQty s.invoice_items l.id ≤ l.quantity) →
      create_invoice s year orderId reqs = (s2, Except.ok created) →
      ∃ o, s2.orders.find? (fun x => x.id == orderId) = Option.some o ∧
        o.invoice_status = specInvoiceStatus
          (s2.so_items.filter (fun i => i.sales_order_id == orderId))
          s2.invoice_items) ∧
    ((∀ l ∈ s.so_items, consumedQty s.shipment_items l.id ≤ l.quantity) →
      create_shipment s orderId reqs = (s2, Except.ok created) →
      ∃ o, s2.orders.find? (fun x => x.id == orderId) = Option.some o ∧
        o.shipment_status = specShipmentStatus
          (s2.so_items.filter (fun i => i.sales_order_id == orderId))
          s2.shipment_items) := by
  constructor
  · intro hinv hok
    unfold create_invoice at hok
    cases hTx : createInvoiceTx s year orderId reqs with
    | error e => rw [hTx] at hok; cases hok
    | ok p =>
      rw [hTx] at hok
      obtain ⟨s1, created1⟩ := p
      injection hok with hs hcr
      subst hs
      unfold createInvoiceTx at hTx
      split at hTx
      · cases hTx
      · rename_i o0 hord
        dsimp only [] at hTx
        split at hTx
        · cases hTx
        · rename_i events created2 hall
          injection hTx with hTx
          injection hTx with hS hC
          subst hS
          have hpost : ∀ l ∈ s.so_items, consumedQty events l.id ≤ l.quantity :=
            fun l hl => allocateAll_consumed_le s.so_items orderId l
              (find?_eq_of_nodup s.so_items l hnd hl) reqs hall (hinv l hl)
          have hspec := derive_invoice_eq_spec
            (s.so_items.filter (fun i => i.sales_order_id == orderId)) events
            (fun l hl => hpost l (List.mem_of_mem_filter hl))
          exact ⟨_, find?_setInvoiceStatus s.orders orderId _ o0 hord, hspec⟩
  · intro hinv hok
    unfold create_shipment at hok
    cases hTx : createShipmentTx s orderId reqs with
    | error e => rw [hTx] at hok; cases hok
    | ok p =>
      rw [hTx] at hok
      obtain ⟨s1, created1⟩ := p
      injection hok with hs hcr
      subst hs
      unfold createShipmentTx at hTx
      split at hTx
      · cases hTx
      · rename_i o0 hord
        dsimp only [] at hTx
        split at hTx
        · cases hTx
        · rename_i events created2 hall
          injection hTx with hTx
          injection hTx with hS hC
          subst hS
          have hpost : ∀ l ∈ s.so_items, consumedQty events l.id ≤ l.quantity :=
            fun l hl => allocateAll_consumed_le s.so_items orderId l
              (find?_eq_of_nodup s.so_items l hnd hl) reqs hall (hinv l hl)
          have hspec := derive_shipment_eq_spec
            (s.so_items.filter (fun i => i.sales_order_id == orderId)) events
            (fun l hl => hpost l (List.mem_of_mem_filter hl))
          exact ⟨_, find?_setShipmentStatus s.orders orderId _ o0 hord, hspec⟩

/-- Witness for C3 at a concrete run: invoicing the full ordered quantity 5
of the single line of order 7 commits `invoice_status = invoiced`, which
equals the spec's derivation over the committed lines and events. -/
theorem status_aggregation_after_fulfillment_witness :
    ∃ o, List.find? (fun x => x.id == 7)
        [(⟨7, SOInvoiceStatus.invoiced, ShipmentStatus.not_shipped⟩ : OrderRow)] =
        Option.some o ∧
      o.invoice_status = specInvoiceStatus
        (List.filter (fun i => i.sales_order_id == 7) [(⟨1, 7, 5⟩ : SOItem)])
        [(⟨1, 5⟩ : FulfillmentEvent)] := by
  have h := (status_aggregation_after_fulfillment
      ⟨[⟨7, SOInvoiceStatus.not_invoiced, ShipmentStatus.not_shipped⟩],
        [⟨1, 7, 5⟩], [], [], 0, []⟩ 2025 7 [⟨1, 5⟩]
      ⟨[⟨7, SOInvoiceStatus.invoiced, ShipmentStatus.not_shipped⟩],
        [⟨1, 7, 5⟩], ["INV-2025-001"], [⟨1, 5⟩], 0, []⟩
      [⟨1, 5⟩] (by decide) (by decide)).1 (by decide) (by decide)
  exact h

end Invision
